import Mathlib

/-!
Verification development for the `blanket` request-dispatch library
(`blanket.py`).  The Python source is shallowly embedded: pure functions
become Lean functions, the mutable `Router` / `ErrorRouter` objects become
explicit state passed through `Except`-valued operations, and Python
exceptions become an explicit `Exc` datatype.  A handler that raises is
modelled as a trampoline step returning the distinguished `Prim.pexc`
value, which the dispatch code converts back into an `Except.error`
exactly where Python would let the exception propagate.
-/

namespace Blanket

/-- The parsed request object (webob `Request`): the dispatch engine only
reads `request.path`; `get_response` additionally checks that the Accept
header is non-empty; and `json_renderer`'s logging line reads a
`request.blanket` attribute, which exists only if userland attached it
(nothing in the library sets it). -/
structure Request where
  path : String
  hasAccept : Bool
  hasBlanket : Bool
deriving DecidableEq, Repr

/-- The Python 2 exception classes involved: the six classes declared in
`blanket.py` lines 33-38 plus the builtin ancestors they inherit from. -/
inductive ExcClass where
  | exceptionC
  | standardErrorC
  | lookupErrorC
  | valueErrorC
  | typeErrorC
  | keyErrorC
  | attributeErrorC
  | sreErrorC
  | blanketValueErrorC
  | blanketLookupErrorC
  | noOutputHandlerC
  | noRouteHandlerC
  | noErrorHandlerC
  | duplicateRouteC
deriving DecidableEq, Repr

/-- The inheritance chain of each class (itself first, then its bases up
to `Exception`), following the `class X(Y): pass` declarations in the
source and the Python 2 builtin exception hierarchy. -/
def ExcClass.ancestors : ExcClass → List ExcClass
  | .exceptionC => [.exceptionC]
  | .standardErrorC => [.standardErrorC, .exceptionC]
  | .lookupErrorC => [.lookupErrorC, .standardErrorC, .exceptionC]
  | .valueErrorC => [.valueErrorC, .standardErrorC, .exceptionC]
  | .typeErrorC => [.typeErrorC, .standardErrorC, .exceptionC]
  | .keyErrorC => [.keyErrorC, .lookupErrorC, .standardErrorC, .exceptionC]
  | .attributeErrorC => [.attributeErrorC, .standardErrorC, .exceptionC]
  | .sreErrorC => [.sreErrorC, .exceptionC]
  | .blanketValueErrorC =>
      [.blanketValueErrorC, .valueErrorC, .standardErrorC, .exceptionC]
  | .blanketLookupErrorC =>
      [.blanketLookupErrorC, .lookupErrorC, .standardErrorC, .exceptionC]
  | .noOutputHandlerC =>
      [.noOutputHandlerC, .blanketLookupErrorC, .lookupErrorC,
       .standardErrorC, .exceptionC]
  | .noRouteHandlerC =>
      [.noRouteHandlerC, .blanketLookupErrorC, .lookupErrorC,
       .standardErrorC, .exceptionC]
  | .noErrorHandlerC =>
      [.noErrorHandlerC, .blanketLookupErrorC, .lookupErrorC,
       .standardErrorC, .exceptionC]
  | .duplicateRouteC =>
      [.duplicateRouteC, .blanketValueErrorC, .valueErrorC,
       .standardErrorC, .exceptionC]

/-- `isinstance`/`issubclass`: `a` is a subclass (or the exact class)
of `b`. -/
def ExcClass.isSub (a b : ExcClass) : Bool := b ∈ a.ancestors

/-- A canonical index, used to model `sorted()` over a set of classes
(Python 2 sorts classes by an unspecified but total order; only the
underlying set matters to the spec). -/
def ExcClass.idx : ExcClass → Nat
  | .exceptionC => 0
  | .standardErrorC => 1
  | .lookupErrorC => 2
  | .valueErrorC => 3
  | .typeErrorC => 4
  | .keyErrorC => 5
  | .attributeErrorC => 6
  | .sreErrorC => 7
  | .blanketValueErrorC => 8
  | .blanketLookupErrorC => 9
  | .noOutputHandlerC => 10
  | .noRouteHandlerC => 11
  | .noErrorHandlerC => 12
  | .duplicateRouteC => 13

/-- Exception instances raised by the embedded code.  Each constructor
records the diagnostics the corresponding Python `raise` interpolates
into its message. -/
inductive Exc where
  /-- the bare `Exception` raised by `Router.__call__` when
  `request.path not in self` -/
  | reminder
  /-- `NoRouteHandler`, carrying the attempted path and the sorted
  registered raw templates -/
  | noRoute (path : String) (routes : List String)
  /-- `NoErrorHandler`, carrying the raised exception class and the
  registered exception classes -/
  | noErrorH (ecls : ExcClass) (classes : List ExcClass)
  /-- `DuplicateRoute`, carrying the raw template -/
  | dupRoute (raw : String)
  /-- the `BlanketValueError` raised by `Router.prepare` on an
  argument-count mismatch, carrying the template -/
  | argMismatch (template : String)
  /-- the `sre_constants.error` raised by `re.compile` on an invalid
  pattern, carrying the rejected pattern text -/
  | sreError (pattern : String)
  /-- any other exception instance of a given class (userland raises,
  `NoRouteHandler("No routes are defined")`, ...) -/
  | userErr (ecls : ExcClass) (msg : String)
deriving DecidableEq, Repr

/-- `type(exc)`: the class of an exception instance. -/
def Exc.cls : Exc → ExcClass
  | .reminder => .exceptionC
  | .noRoute _ _ => .noRouteHandlerC
  | .noErrorH _ _ => .noErrorHandlerC
  | .dupRoute _ => .duplicateRouteC
  | .argMismatch _ => .blanketValueErrorC
  | .sreError _ => .sreErrorC
  | .userErr c _ => c

/-- Ground (non-callable) Python values appearing as keyword arguments or
handler results: `None`, strings, numbers, request objects and exception
instances.  Returning `pexc e` from a trampoline step models raising `e`. -/
inductive Prim where
  | pnone
  | pstr (s : String)
  | pnat (n : Nat)
  | preq (r : Request)
  | pexc (e : Exc)
deriving DecidableEq, Repr

/-- The keyword context passed through `keepcalling` (`**kwargs`). -/
abbrev Kw := List (String × Prim)

/-- A Python value as seen by the trampoline: either a ground value or a
callable. -/
inductive Value where
  | prim (p : Prim)
  | func (f : Kw → Value)

/-- `callable(data)`. -/
def Value.isCallable : Value → Bool
  | .func _ => true
  | .prim _ => false

/-- `keepcalling` (blanket.py lines 41-58): while the value is callable,
call it with the keyword context; return the first non-callable result. -/
def keepcalling : Value → Kw → Value
  | .func f, kwargs => keepcalling (f kwargs) kwargs
  | .prim p, _ => .prim p

/-! ### String scanning helpers (models of Python `in` and `str.replace`) -/

/-- `needle.isPrefixOf hay` on character lists. -/
def isPre : List Char → List Char → Bool
  | [], _ => true
  | _ :: _, [] => false
  | a :: as, b :: bs => a == b && isPre as bs

/-- Python `needle in hay` (substring containment). -/
def occursIn (needle : List Char) : List Char → Bool
  | [] => isPre needle []
  | s :: rest => isPre needle (s :: rest) || occursIn needle rest

/-- Fuel-indexed core of `replaceAll`: each step consumes at least one
character of the haystack, so fuel `hay.length` is always enough. -/
def replaceFuel : Nat → List Char → List Char → List Char → List Char
  | 0, hay, _, _ => hay
  | fuel + 1, hay, old, new =>
    match hay with
    | [] => []
    | c :: rest =>
      if !old.isEmpty && isPre old (c :: rest) then
        new ++ replaceFuel fuel ((c :: rest).drop old.length) old new
      else
        c :: replaceFuel fuel rest old new

/-- Python `hay.replace(old, new)`: replace every non-overlapping
occurrence, scanning left to right.  (`old` is never empty in the
source's transformer tables.) -/
def replaceAll (hay old new : List Char) : List Char :=
  replaceFuel hay.length hay old new

/-! ### URLTransformRegistry (blanket.py lines 75-135) -/

/-- A compiled regular expression as produced by
`re.compile(final_path, re.IGNORECASE)`: the pattern text plus the
case-insensitivity flag. -/
structure CompiledRegex where
  pattern : String
  icase : Bool
deriving DecidableEq, Repr

/-- `RoutePattern`: the userland raw path together with the compiled
regex. -/
structure RoutePattern where
  raw : String
  regex : CompiledRegex
deriving DecidableEq, Repr

/-- The `prefix_transformers` entry followed by the `suffix_transformers`
entries of `URLTransformRegistry.__init__`, in source order.  (Python 2
dict iteration order is unspecified; no two triggers overlap inside any
single placeholder token, so the order does not affect placeholder
expansion.)  The replacement values are plain strings, so the
`keepcalling` pass in `make` returns them unchanged. -/
def urlTransformers : List (String × String) :=
  [ ("\x7b", ("(?P<")),
    ("!d\x7d", (">[0-9]+?)")),
    ("!year\x7d", (">[1-9][0-9]\x7b3\x7d)")),
    ("!month\x7d", (">(0[1-9]|1[0-2]))")),
    ("!day\x7d", (">(0[1-9]|[12]\\d|3[01]))")),
    ("!f\x7d", (">[0-9]+\\.[0-9]+?)")),
    ("!x\x7d", (">[0-9a-f]+?)")),
    ("!slug\x7d", (">[a-z0-9_-]+?)")),
    ("!uuid\x7d", (">[0-9a-f]\x7b8\x7d-[0-9a-f]\x7b4\x7d-[0-9a-f]\x7b4\x7d-[0-9a-f]\x7b4\x7d-[0-9a-f]\x7b12\x7d|[0-9a-f]\x7b32\x7d)")),
    ("!s\x7d", (">.+?)")) ]

/-- One step of the loop body of `URLTransformRegistry.make`:
`if from_ in path_updated: path_updated = path_updated.replace(from_, to_)`. -/
def transformStep (acc : List Char) (p : String × String) : List Char :=
  if occursIn p.1.data acc then replaceAll acc p.1.data p.2.data else acc

/-! ### Model of the Python `re` module (external collaborator)

The compiled patterns produced by `make` use only: literal characters,
`.`, escaped characters, character classes with ranges, `(...)` and
`(?P<name>...)` groups, alternation `|`, and bounded repetition `{n}`
(plus the lazy quantifier `+?`, which no claim exercises: patterns using
it fall outside the parsed subset).  Matching `^body$` is modelled as
full-string membership; Python's "`$` also matches before a trailing
newline" quirk is not modelled (no claim involves newlines). -/

/-- A character class as a union of inclusive code-point ranges. -/
structure CClass where
  ranges : List (Nat × Nat)
deriving DecidableEq, Repr

/-- ASCII case toggle on code points, for `re.IGNORECASE`. -/
def flipCase (n : Nat) : Nat :=
  if 65 ≤ n ∧ n ≤ 90 then n + 32
  else if 97 ≤ n ∧ n ≤ 122 then n - 32
  else n

/-- Membership of a code point in a class. -/
def CClass.mem (c : CClass) (n : Nat) : Bool :=
  c.ranges.any (fun r => r.1 ≤ n && n ≤ r.2)

/-- Membership of a character, honouring `re.IGNORECASE` (`ic`): a
character matches if it or its other-case variant is in the class. -/
def CClass.test (c : CClass) (ic : Bool) (a : Char) : Bool :=
  c.mem a.toNat || (ic && c.mem (flipCase a.toNat))

/-- Regular expressions over the subset used by the compiled route
patterns. -/
inductive Regex where
  | eps
  | cls (c : CClass)
  | seq (a b : Regex)
  | alt (a b : Regex)
  | grp (name : Option String) (r : Regex)
deriving DecidableEq, Repr

/-- `{n}` bounded repetition, unfolded. -/
def repeatN : Nat → Regex → Regex
  | 0, _ => .eps
  | n + 1, r => .seq r (repeatN n r)

/-- Read a group name up to `>`. -/
def readName : List Char → List Char → Option (String × List Char)
  | [], _ => none
  | '>' :: rest, acc => some (⟨acc.reverse⟩, rest)
  | c :: rest, acc => readName rest (c :: acc)

/-- Read the digits of a `{n}` postfix up to the closing brace. -/
def readNat : List Char → Nat → Option (Nat × List Char)
  | [], _ => none
  | c :: rest, acc =>
    if c.isDigit then readNat rest (acc * 10 + (c.toNat - 48))
    else if c == '\x7d' then some (acc, rest) else none

/-- Fuel-indexed body reader of a `[...]` character class, up to `]`
(fuel `s.length + 1` always suffices: each step consumes input). -/
def readClassF : Nat → List Char → List (Nat × Nat) →
    Option (List (Nat × Nat) × List Char)
  | 0, _, _ => none
  | _ + 1, [], _ => none
  | _ + 1, ']' :: rest, acc => some (acc.reverse, rest)
  | fuel + 1, '\\' :: c :: rest, acc =>
    if c == 'd' then readClassF fuel rest ((48, 57) :: acc)
    else readClassF fuel rest ((c.toNat, c.toNat) :: acc)
  | fuel + 1, c :: '-' :: d :: rest, acc =>
    if d == ']' then readClassF fuel ('-' :: d :: rest) ((c.toNat, c.toNat) :: acc)
    else readClassF fuel rest ((c.toNat, d.toNat) :: acc)
  | fuel + 1, c :: rest, acc => readClassF fuel rest ((c.toNat, c.toNat) :: acc)

/-- Read the body of a `[...]` character class up to `]`. -/
def readClass (s : List Char) (acc : List (Nat × Nat)) :
    Option (List (Nat × Nat) × List Char) :=
  readClassF (s.length + 1) s acc

/-- Parser mode: alternation level, concatenation level, single item,
atom. -/
inductive PMode where
  | altM | seqM | itemM | atomM

/-- Fuel-indexed recursive-descent parser for the regex subset.  Returns
the parsed regex and the unconsumed input. -/
def parseR : Nat → PMode → List Char → Option (Regex × List Char)
  | 0, _, _ => none
  | fuel + 1, .altM, s =>
    match parseR fuel .seqM s with
    | none => none
    | some (r₁, s₁) =>
      match s₁ with
      | '|' :: rest =>
        match parseR fuel .altM rest with
        | none => none
        | some (r₂, s₂) => some (.alt r₁ r₂, s₂)
      | _ => some (r₁, s₁)
  | fuel + 1, .seqM, s =>
    match s with
    | [] => some (.eps, [])
    | ')' :: _ => some (.eps, s)
    | '|' :: _ => some (.eps, s)
    | _ =>
      match parseR fuel .itemM s with
      | none => none
      | some (i, s₁) =>
        match parseR fuel .seqM s₁ with
        | none => none
        | some (rest, s₂) => some (.seq i rest, s₂)
  | fuel + 1, .itemM, s =>
    match parseR fuel .atomM s with
    | none => none
    | some (a, s₁) =>
      match s₁ with
      | '\x7b' :: rest =>
        match readNat rest 0 with
        | some (n, s₂) => some (repeatN n a, s₂)
        | none => none
      | '+' :: _ => none
      | '*' :: _ => none
      | '?' :: _ => none
      | _ => some (a, s₁)
  | fuel + 1, .atomM, s =>
    match s with
    | '(' :: '?' :: 'P' :: '<' :: rest =>
      match readName rest [] with
      | none => none
      | some (name, s₁) =>
        match parseR fuel .altM s₁ with
        | none => none
        | some (r, s₂) =>
          match s₂ with
          | ')' :: s₃ => some (.grp (some name) r, s₃)
          | _ => none
    | '(' :: rest =>
      match parseR fuel .altM rest with
      | none => none
      | some (r, s₂) =>
        match s₂ with
        | ')' :: s₃ => some (.grp none r, s₃)
        | _ => none
    | '[' :: rest =>
      match readClass rest [] with
      | none => none
      | some (rs, s₁) => some (.cls ⟨rs⟩, s₁)
    | '\\' :: c :: rest =>
      if c == 'd' then some (.cls ⟨[(48, 57)]⟩, rest)
      else some (.cls ⟨[(c.toNat, c.toNat)]⟩, rest)
    | '.' :: rest => some (.cls ⟨[(0, 9), (11, 1114111)]⟩, rest)
    | c :: rest =>
      if c == ')' || c == '|' || c == '^' || c == '$' || c == '+' ||
         c == '*' || c == '?' || c == '\x7b' || c == '\x7d' || c == '[' then
        none
      else some (.cls ⟨[(c.toNat, c.toNat)]⟩, rest)
    | [] => none

/-- Parse a full anchored pattern `^body$` into a regex for the body. -/
def parsePattern (p : String) : Option Regex :=
  match p.data with
  | '^' :: rest =>
    if rest.getLast? = some '$' then
      match parseR (8 * rest.length + 16) .altM rest.dropLast with
      | some (r, []) => some r
      | _ => none
    else none
  | _ => none

/-- Captured named groups while matching. -/
abbrev Caps := List (String × List Char)

/-- Backtracking matcher in continuation-passing style.  `alt` prefers
its left branch, mirroring Python's leftmost-alternative preference; the
subset has no unbounded quantifiers, so this is Python's exact
backtracking order.  Closing a named group records the characters the
group consumed. -/
def mrun (ic : Bool) : Regex → List Char → Caps →
    (List Char → Caps → Option Caps) → Option Caps
  | .eps, s, cap, k => k s cap
  | .cls c, s, cap, k =>
    match s with
    | a :: rest => if c.test ic a then k rest cap else none
    | [] => none
  | .seq r₁ r₂, s, cap, k =>
    mrun ic r₁ s cap (fun s' c' => mrun ic r₂ s' c' k)
  | .alt r₁ r₂, s, cap, k =>
    match mrun ic r₁ s cap k with
    | some res => some res
    | none => mrun ic r₂ s cap k
  | .grp none r, s, cap, k => mrun ic r s cap k
  | .grp (some n) r, s, cap, k =>
    mrun ic r s cap
      (fun s' c' => k s' (c' ++ [(n, s.take (s.length - s'.length))]))

/-- `compiled.match(value)` for an anchored `^body$` pattern: `some`
groupdict on success, `none` on failure (also when the pattern falls
outside the parsed subset). -/
def reMatchGroups (cr : CompiledRegex) (s : String) :
    Option (List (String × String)) :=
  match parsePattern cr.pattern with
  | none => none
  | some r =>
    match mrun cr.icase r s.data []
        (fun rest caps => if rest.isEmpty then some caps else none) with
    | some caps => some (caps.map (fun p => (p.1, ⟨p.2⟩)))
    | none => none

/-- Validator mode, mirroring the parser modes. -/
inductive VMode where
  | altV | seqV | itemV | atomV

/-- Consume the optional `?` that makes a quantifier lazy. -/
def dropLazy : List Char → List Char
  | '?' :: rest => rest
  | s => s

/-- Fuel-indexed syntax validator modelling the pattern check
`re.compile` performs (`sre_constants.error` on failure): the grammar of
`parseR` widened with the quantifiers `+`, `*`, `?`, `\x7bn\x7d` and
their lazy variants, which `re` accepts even though the matcher subset
does not cover them.  It correctly rejects unbalanced `(`, `)` and `[`;
it is stricter than Python on a few quirks outside the modelled subset
(Python accepts a stray `\x7d`, a non-quantifier `\x7b` and extension
groups `(?...)` that no compiled route pattern contains).  Returns the
unconsumed input on success. -/
def validR : Nat → VMode → List Char → Option (List Char)
  | 0, _, _ => none
  | fuel + 1, .altV, s =>
    match validR fuel .seqV s with
    | none => none
    | some s₁ =>
      match s₁ with
      | '|' :: rest => validR fuel .altV rest
      | _ => some s₁
  | fuel + 1, .seqV, s =>
    match s with
    | [] => some []
    | ')' :: _ => some s
    | '|' :: _ => some s
    | _ =>
      match validR fuel .itemV s with
      | none => none
      | some s₁ => validR fuel .seqV s₁
  | fuel + 1, .itemV, s =>
    match validR fuel .atomV s with
    | none => none
    | some s₁ =>
      match s₁ with
      | '\x7b' :: rest =>
        match readNat rest 0 with
        | some (_, s₂) => some (dropLazy s₂)
        | none => none
      | '+' :: rest => some (dropLazy rest)
      | '*' :: rest => some (dropLazy rest)
      | '?' :: rest => some (dropLazy rest)
      | _ => some s₁
  | fuel + 1, .atomV, s =>
    match s with
    | '(' :: '?' :: 'P' :: '<' :: rest =>
      match readName rest [] with
      | none => none
      | some (_, s₁) =>
        match validR fuel .altV s₁ with
        | none => none
        | some s₂ =>
          match s₂ with
          | ')' :: s₃ => some s₃
          | _ => none
    | '(' :: '?' :: _ => none
    | '(' :: rest =>
      match validR fuel .altV rest with
      | none => none
      | some s₂ =>
        match s₂ with
        | ')' :: s₃ => some s₃
        | _ => none
    | '[' :: rest =>
      match readClass rest [] with
      | none => none
      | some (_, s₁) => some s₁
    | '\\' :: _ :: rest => some rest
    | '.' :: rest => some rest
    | c :: rest =>
      if c == ')' || c == '|' || c == '^' || c == '$' || c == '+' ||
         c == '*' || c == '?' || c == '\x7b' || c == '\x7d' || c == '[' then
        none
      else some rest
    | [] => none

/-- Syntactic validity of an anchored `^body$` pattern, as `re.compile`
checks it (on the modelled grammar). -/
def reValid (p : String) : Bool :=
  match p.data with
  | '^' :: rest =>
    if rest.getLast? = some '$' then
      match validR (8 * rest.length + 16) .altV rest.dropLast with
      | some [] => true
      | _ => false
    else false
  | _ => false

/-- `re.compile(final_path, re.IGNORECASE)`: an invalid pattern raises
`sre_constants.error`; a valid one yields the compiled regex. -/
def reCompile (p : String) : Except Exc CompiledRegex :=
  if reValid p then .ok { pattern := p, icase := true }
  else .error (.sreError p)

/-- `URLTransformRegistry.make(path)`: textual substitution of the
transformer triggers, then a leading `/` is ensured, the result is
wrapped in `^`/`$` anchors and handed to `re.compile` with
`re.IGNORECASE` — which raises `sre_constants.error` when the
substituted text is not a valid pattern (e.g. template `a(`). -/
def make (path : String) : Except Exc RoutePattern :=
  let updated := urlTransformers.foldl transformStep path.data
  let finalPath :=
    if isPre ['/'] updated then '^' :: updated ++ ['$']
    else '^' :: '/' :: updated ++ ['$']
  Except.map (fun regex => { raw := path, regex := regex }) (reCompile ⟨finalPath⟩)

/-- The `RoutePattern` of a successful compilation (fixtures only use it
on templates whose `make` provably succeeds; the fallback branch is
never reached there). -/
def makeOk (path : String) : RoutePattern :=
  match make path with
  | .ok pat => pat
  | .error _ => { raw := path, regex := { pattern := path, icase := true } }

/-! ### Router (blanket.py lines 209-325) -/

/-- What `getargspec` reports about a Python handler, plus the handler's
behaviour as a trampoline value. -/
structure Handler where
  argNames : List String
  numDefaults : Nat
  fn : Value

/-- `Router.prepare`'s required-argument computation: all arguments,
minus the trailing defaulted ones, minus `request`. -/
def requiredArguments (h : Handler) : List String :=
  let req :=
    if h.numDefaults > 0 then h.argNames.take (h.argNames.length - h.numDefaults)
    else h.argNames
  req.erase ("request")

/-- `value.count('\x7b')`: the number of placeholder openers in a
template. -/
def countPlaceholders (s : String) : Nat :=
  (s.data.filter (fun c => c == '\x7b')).length

/-- A path route: compiled pattern, handler, accepted outputs (the
outputs are carried but never consulted by dispatch). -/
structure Route where
  pattern : RoutePattern
  handler : Value
  outputs : List String

/-- `Route.__call__`: if the compiled matcher matches the request path,
run the handler through the trampoline with `request` and the captured
named groups bound; otherwise return `None`. -/
def Route.call (r : Route) (req : Request) : Value :=
  match reMatchGroups r.pattern.regex req.path with
  | some gd =>
    keepcalling r.handler
      (("request", .preq req) :: gd.map (fun p => (p.1, .pstr p.2)))
  | none => .prim .pnone

/-- The mutable `Router` state: the ordered route list and the
`seen_routes` set (kept as its insertion-order list; `routerAdd`
preserves distinctness). -/
structure Router where
  routes : List Route
  seen : List String

/-- A fresh `Router()`. -/
def Router.empty : Router := ⟨[], []⟩

/-- `Router.prepare`: check the handler's required-argument count
(excluding `request`) against the template's placeholder count, raising
`BlanketValueError` on mismatch, then compile the template (which may
itself raise `sre_constants.error`). -/
def routerPrepare (value : String) (h : Handler) : Except Exc RoutePattern :=
  if (requiredArguments h).length ≠ countPlaceholders value then
    .error (.argMismatch value)
  else make value

/-- `Router.add`: prepare (argument check + compile), then reject raw
templates already in `seen_routes` with `DuplicateRoute`, else record the
raw template and append the new route. -/
def routerAdd (R : Router) (thing : String) (h : Handler) (outs : List String) :
    Except Exc Router :=
  match routerPrepare thing h with
  | .error e => .error e
  | .ok pat =>
    if pat.raw ∈ R.seen then .error (.dupRoute pat.raw)
    else .ok { routes := R.routes ++ [{ pattern := pat, handler := h.fn, outputs := outs }],
               seen := R.seen ++ [pat.raw] }

/-- `Router.__contains__`: some route's matcher matches the path. -/
def routerMatches (R : Router) (path : String) : Bool :=
  R.routes.any (fun r => (reMatchGroups r.pattern.regex path).isSome)

/-- `Router.__len__`: `(len(self.routes) + len(self.seen_routes)) / 2`
(exact whenever list and set lengths agree, which `routerAdd`
maintains). -/
def routerLen (R : Router) : Nat :=
  (R.routes.length + R.seen.length) / 2

/-- Python `sorted()` on strings (lexicographic), by insertion sort. -/
def insertStr (x : String) : List String → List String
  | [] => [x]
  | y :: ys => if x ≤ y then x :: y :: ys else y :: insertStr x ys

/-- See `insertStr`. -/
def sortStrs : List String → List String
  | [] => []
  | x :: xs => insertStr x (sortStrs xs)

/-- The `for route in self` loop of `Router.__call__`: the first route
whose call result is not `None` is returned (an exception raised inside
a handler propagates); if every route produced `None`, raise
`NoRouteHandler` with the path and the sorted raw templates. -/
def routerLoop (req : Request) (path : String) (seen : List String) :
    List Route → Except Exc Value
  | [] => .error (.noRoute path (sortStrs seen))
  | r :: rest =>
    match r.call req with
    | .prim .pnone => routerLoop req path seen rest
    | .prim (.pexc e) => .error e
    | v => .ok v

/-- `Router.__call__`: first the membership pre-check — if no route
matches the path, raise the bare `Exception('reminder to self, change
this')` — then the first-non-None loop. -/
def routerCall (R : Router) (req : Request) : Except Exc Value :=
  if routerMatches R req.path then routerLoop req req.path R.seen R.routes
  else .error .reminder

/-! ### ErrorRouter (blanket.py lines 328-377) -/

/-- An error route: registered exception class, handler, outputs.  (The
source wraps the class in `RoutePattern(raw=cls, regex=None)`; the class
is stored directly here.) -/
structure ErrorRoute where
  exceptionClass : ExcClass
  handler : Value
  outputs : List String

/-- `ErrorRoute.handles`: `isinstance(value, registered)` — the
registered class is the exact class or an ancestor of the instance's
class.  (The `issubclass` fallbacks in the source only fire for
non-instance arguments and reduce to the same test for instances.) -/
def ErrorRoute.handles (r : ErrorRoute) (e : Exc) : Bool :=
  e.cls.isSub r.exceptionClass

/-- The mutable `ErrorRouter` state. -/
structure ErrorRouter where
  routes : List ErrorRoute
  seen : List ExcClass

/-- A fresh `ErrorRouter()`. -/
def ErrorRouter.empty : ErrorRouter := ⟨[], []⟩

/-- `sorted()` over registered classes, via the canonical index (the
Python 2 order over classes is unspecified; only the set is
meaningful). -/
def insertCls (x : ExcClass) : List ExcClass → List ExcClass
  | [] => [x]
  | y :: ys => if x.idx ≤ y.idx then x :: y :: ys else y :: insertCls x ys

/-- See `insertCls`. -/
def sortCls : List ExcClass → List ExcClass
  | [] => []
  | x :: xs => insertCls x (sortCls xs)

/-- The result of the final trampoline value of a dispatched handler as
the caller observes it: a distinguished raised-exception value
propagates as a raised exception, anything else is returned. -/
def raiseOr (v : Value) : Except Exc Value :=
  match v with
  | .prim (.pexc e) => .error e
  | v => .ok v

/-- The keyword context `ErrorRouter.__call__` hands to the trampoline:
`exception=exception, request=request`. -/
def errKwargs (e : Exc) (req : Option Request) : Kw :=
  [(("exception"), .pexc e),
   (("request"), match req with | some r => .preq r | none => .pnone)]

/-- The loop of `ErrorRouter.__call__`: the first entry that handles the
exception has its handler trampolined with `exception` and `request`
bound; no entry raises `NoErrorHandler` with the exception's class and
the registered classes. -/
def errorRouterLoop (e : Exc) (req : Option Request) (ecls : ExcClass)
    (seen : List ExcClass) : List ErrorRoute → Except Exc Value
  | [] => .error (.noErrorH ecls (sortCls seen))
  | r :: rest =>
    if r.handles e then raiseOr (keepcalling r.handler (errKwargs e req))
    else errorRouterLoop e req ecls seen rest

/-- `ErrorRouter.__call__(exception, request=None)`. -/
def errorRouterCall (R : ErrorRouter) (e : Exc) (req : Option Request) :
    Except Exc Value :=
  errorRouterLoop e req e.cls R.seen R.routes

/-! ### Blanket application (blanket.py lines 423-526) -/

/-- The application: a route table and an exception route table. -/
structure App where
  router : Router
  errorRouter : ErrorRouter

/-- `Blanket.get_response`, given an already-parsed request (webob
`Request` construction from the WSGI environ is an external collaborator
and cannot fail in this model).  Block 1: the empty-router check, whose
`NoRouteHandler` is caught and redirected (without a request).  Block 2:
the Accept-header check, whose `BlanketValueError` is caught and
redirected (without a request).  Block 3: route dispatch; any exception
it raises is redirected to the error router with the request attached.
Nothing raised by `errorRouterCall` itself is caught. -/
def getResponse (app : App) (req : Request) : Except Exc Value :=
  if routerLen app.router < 1 then
    errorRouterCall app.errorRouter
      (.userErr .noRouteHandlerC ("No routes are defined")) none
  else if !req.hasAccept then
    errorRouterCall app.errorRouter
      (.userErr .blanketValueErrorC ("no HTTP_ACCEPT header")) none
  else
    match routerCall app.router req with
    | .ok v => .ok v
    | .error e => errorRouterCall app.errorRouter e (some req)

/-! ### json_renderer (blanket.py lines 158-163)

Model of Python 2 `json.dumps(context, indent=4, check_circular=True)`:
with `indent` the item separator is `', '` followed by a newline and the
next indentation (keeping Python 2's trailing space, as the repository's
`test_outputs.py` asserts), keys are emitted in the mapping's iteration
order, and a non-serializable value raises `TypeError` — which
`json_renderer` catches, returning `None`.  Strings are emitted with
quote/backslash escaping (non-ASCII `\\u` escaping is not modelled; no
claim exercises it).  Circularity is impossible for inductive values, so
`check_circular` has no observable effect. -/

/-- A Python value handed to the JSON encoder: JSON-representable
constructors plus `junser`, an object the encoder rejects. -/
inductive JVal where
  | jnull
  | jbool (b : Bool)
  | jnat (n : Nat)
  | jstr (s : String)
  | jarr (l : List JVal)
  | jobj (l : List (String × JVal))
  | junser
deriving Repr

/-- Backslash-escape quotes and backslashes. -/
def escapeJ : List Char → List Char
  | [] => []
  | c :: rest =>
    if c == '"' then '\\' :: '"' :: escapeJ rest
    else if c == '\\' then '\\' :: '\\' :: escapeJ rest
    else c :: escapeJ rest

/-- A JSON string literal. -/
def quoteJ (s : String) : String := ⟨'"' :: (escapeJ s.data ++ ['"'])⟩

/-- `' ' * (4 * level)`. -/
def ind (lvl : Nat) : String := ⟨List.replicate (4 * lvl) ' '⟩

/-- Join with a separator. -/
def joinSep (sep : String) : List String → String
  | [] => ("")
  | [x] => x
  | x :: y :: rest => x ++ sep ++ joinSep sep (y :: rest)

mutual

/-- `json.dumps` at an indentation level: `none` models a raised
`TypeError`. -/
def dumpV : Nat → JVal → Option String
  | _, .jnull => some ("null")
  | _, .jbool b => some (if b then ("true") else ("false"))
  | _, .jnat n => some (toString n)
  | _, .jstr s => some (quoteJ s)
  | _, .junser => none
  | lvl, .jarr l =>
    match dumpArrItems (lvl + 1) l with
    | none => none
    | some [] => some ("[]")
    | some items =>
      some (("[\n") ++ ind (lvl + 1) ++
            joinSep ((", \n") ++ ind (lvl + 1)) items ++
            ("\n") ++ ind lvl ++ ("]"))
  | lvl, .jobj l =>
    match dumpObjItems (lvl + 1) l with
    | none => none
    | some [] => some ("\x7b\x7d")
    | some items =>
      some (("\x7b\n") ++ ind (lvl + 1) ++
            joinSep ((", \n") ++ ind (lvl + 1)) items ++
            ("\n") ++ ind lvl ++ ("\x7d"))

/-- Encode array elements. -/
def dumpArrItems : Nat → List JVal → Option (List String)
  | _, [] => some []
  | lvl, v :: rest =>
    match dumpV lvl v, dumpArrItems lvl rest with
    | some sv, some srest => some (sv :: srest)
    | _, _ => none

/-- Encode object entries in iteration order. -/
def dumpObjItems : Nat → List (String × JVal) → Option (List String)
  | _, [] => some []
  | lvl, (k, v) :: rest =>
    match dumpV lvl v, dumpObjItems lvl rest with
    | some sv, some srest => some ((quoteJ k ++ (": ") ++ sv) :: srest)
    | _, _ => none

end

mutual

/-- A value contains no `junser` (the encoder will accept it). -/
def serializableV : JVal → Bool
  | .jnull => true
  | .jbool _ => true
  | .jnat _ => true
  | .jstr _ => true
  | .junser => false
  | .jarr l => serializableArr l
  | .jobj l => serializableObj l

/-- See `serializableV`. -/
def serializableArr : List JVal → Bool
  | [] => true
  | v :: rest => serializableV v && serializableArr rest

/-- See `serializableV`. -/
def serializableObj : List (String × JVal) → Bool
  | [] => true
  | (_, v) :: rest => serializableV v && serializableObj rest

end

/-- `json_renderer(request, context)`: serialize the context mapping
with 4-space indentation (the `.encode('UTF-8')` step is the identity on
the modelled strings).  When `json.dumps` raises, the `except` block
first evaluates `request.blanket.log` — an attribute nothing in the
library ever sets — so unless userland attached it, an `AttributeError`
escapes before the `return None` line is reached. -/
def json_renderer (request : Request) (context : List (String × JVal)) :
    Except Exc (Option String) :=
  match dumpV 0 (.jobj context) with
  | some s => .ok (some s)
  | none =>
    if request.hasBlanket then .ok none
    else .error (.userErr .attributeErrorC ("blanket"))

/-- The list/set drift invariant of a `Router`: `seen_routes` has no
duplicates and the route list and the seen set have the same size. -/
def routerInv (R : Router) : Prop :=
  R.seen.Nodup ∧ R.routes.length = R.seen.length

/-- The parse of the compiled pattern body for the template
`\x7bv!year\x7d` (checked by `rfl` against `parsePattern`). -/
def yearAST : Regex :=
  .seq (.cls ⟨[(47, 47)]⟩)
    (.seq
      (.grp (some ("v"))
        (.seq (.cls ⟨[(49, 57)]⟩)
          (.seq
            (.seq (.cls ⟨[(48, 57)]⟩)
              (.seq (.cls ⟨[(48, 57)]⟩)
                (.seq (.cls ⟨[(48, 57)]⟩) .eps)))
            .eps)))
      .eps)

/-- The parse of the compiled pattern body for the template
`\x7bv!month\x7d`. -/
def monthAST : Regex :=
  .seq (.cls ⟨[(47, 47)]⟩)
    (.seq
      (.grp (some ("v"))
        (.seq
          (.grp none
            (.alt
              (.seq (.cls ⟨[(48, 48)]⟩)
                (.seq (.cls ⟨[(49, 57)]⟩) .eps))
              (.seq (.cls ⟨[(49, 49)]⟩)
                (.seq (.cls ⟨[(48, 50)]⟩) .eps))))
          .eps))
      .eps)

/-- The parse of the compiled pattern body for the template
`\x7bv!day\x7d`. -/
def dayAST : Regex :=
  .seq (.cls ⟨[(47, 47)]⟩)
    (.seq
      (.grp (some ("v"))
        (.seq
          (.grp none
            (.alt
              (.seq (.cls ⟨[(48, 48)]⟩)
                (.seq (.cls ⟨[(49, 57)]⟩) .eps))
              (.alt
                (.seq (.cls ⟨[(49, 49), (50, 50)]⟩)
                  (.seq (.cls ⟨[(48, 57)]⟩) .eps))
                (.seq (.cls ⟨[(51, 51)]⟩)
                  (.seq (.cls ⟨[(48, 48), (49, 49)]⟩) .eps)))))
          .eps))
      .eps)

/-- An ASCII decimal digit. -/
def IsDigitCh (c : Char) : Prop := 48 ≤ c.toNat ∧ c.toNat ≤ 57

instance (c : Char) : Decidable (IsDigitCh c) :=
  inferInstanceAs (Decidable (48 ≤ c.toNat ∧ c.toNat ≤ 57))

/-- The numeric value of a decimal digit string. -/
def natOfDigits (l : List Char) : Nat :=
  l.foldl (fun acc c => acc * 10 + (c.toNat - 48)) 0

/-! ### Concrete fixtures -/

/-- A handler of one `request` parameter whose body returns `None`. -/
def hNone : Handler := ⟨[("request")], 0, .func (fun _ => .prim .pnone)⟩

/-- A handler of one `request` parameter returning the string
`second`. -/
def hSecond : Handler :=
  ⟨[("request")], 0, .func (fun _ => .prim (.pstr ("second")))⟩

/-- A handler of one `request` parameter returning the string `ok`. -/
def hOk : Handler := ⟨[("request")], 0, .func (fun _ => .prim (.pstr ("ok")))⟩

/-- A handler of `(a, request)` (one required placeholder argument). -/
def hOneArg : Handler :=
  ⟨[("a"), ("request")], 0, .func (fun _ => .prim (.pstr ("one")))⟩

/-- A handler of one `request` parameter that raises
`BlanketValueError('test')` (mirrors `_exception_raiser` in
`test_blanket_application.py`). -/
def hRaise : Handler :=
  ⟨[("request")], 0,
   .func (fun _ => .prim (.pexc (.userErr .blanketValueErrorC ("test"))))⟩

/-- A handler of `(z, request)` whose placeholder argument `z` matches
no placeholder in a zero-placeholder template. -/
def hBad : Handler :=
  ⟨[("z"), ("request")], 0, .func (fun _ => .prim .pnone)⟩

/-- Unwrap a successful `routerAdd`, else the empty router. -/
def addOk (r : Except Exc Router) : Router :=
  match r with
  | .ok r' => r'
  | .error _ => Router.empty

/-- The route registered for template `x` with the `None`-returning
handler. -/
def rX : Route := ⟨makeOk ("x"), hNone.fn, []⟩

/-- The route registered for template `/x` with the `second`-returning
handler. -/
def rSlashX : Route := ⟨makeOk ("/x"), hSecond.fn, []⟩

/-- Routes `x` (handler returns `None`) then `/x` (handler returns
`second`); both compiled patterns match the path `/x`. -/
def c1router : Router :=
  addOk (routerAdd (addOk (routerAdd Router.empty ("x") hNone [])) ("/x")
    hSecond [])

/-- A request for `/x` with an Accept header. -/
def reqX : Request := ⟨("/x"), true, false⟩

/-- A single route `x`. -/
def c2router : Router := addOk (routerAdd Router.empty ("x") hOk [])

/-- A request for `/y`, matched by no route of `c2router`. -/
def reqY : Request := ⟨("/y"), true, false⟩

/-- Router with `a` registered (handler `hOk`). -/
def c4router : Router := addOk (routerAdd Router.empty ("a") hOk [])

/-- An error-router handler returning the string `swallowed`. -/
def swallow : Value := .func (fun _ => .prim (.pstr ("swallowed")))

/-- An error route registered for `TypeError`. -/
def erT : ErrorRoute := ⟨.typeErrorC, swallow, []⟩

/-- An error route registered for `ValueError`. -/
def erV : ErrorRoute := ⟨.valueErrorC, swallow, []⟩

/-- Error router registered for `TypeError` then `ValueError` (mirrors
`test_router_for_exceptions.py`). -/
def erTV : ErrorRouter := ⟨[erT, erV], [.typeErrorC, .valueErrorC]⟩

/-- The app of `test_exception_causes_redirection_to_error_router`: a
route `/` whose handler raises `BlanketValueError`, and an error router
that handles `ValueError`. -/
def c8app : App :=
  ⟨addOk (routerAdd Router.empty ("/") hRaise []), ⟨[erV], [.valueErrorC]⟩⟩

/-- The same routes with an empty error router: the redirected exception
finds no handler and `NoErrorHandler` escapes. -/
def c8appBare : App :=
  ⟨addOk (routerAdd Router.empty ("/") hRaise []), ErrorRouter.empty⟩

/-- A request for the root path with an Accept header. -/
def reqRoot : Request := ⟨("/"), true, false⟩

/-! ## Helper lemmas -/

theorem keepcalling_func (f : Kw → Value) (kw : Kw) :
    keepcalling (.func f) kw = keepcalling (f kw) kw := by
  rw [keepcalling]

theorem keepcalling_prim (p : Prim) (kw : Kw) :
    keepcalling (.prim p) kw = .prim p := by
  rw [keepcalling]

theorem keepcalling_not_callable (v : Value) (kw : Kw) :
    (keepcalling v kw).isCallable = false := by
  induction v with
  | prim p => rw [keepcalling_prim]; rfl
  | func f ih => rw [keepcalling_func]; exact ih kw

/-- C5: `keepcalling` loops while the value is invocable, calling it with
the keyword context and replacing the value with the call's result; it
returns a non-invocable input unchanged, and its result is never
invocable. -/
theorem keepcalling_spec :
    (∀ (f : Kw → Value) (kw : Kw),
      keepcalling (.func f) kw = keepcalling (f kw) kw)
    ∧ (∀ (v : Value) (kw : Kw), v.isCallable = false → keepcalling v kw = v)
    ∧ (∀ (v : Value) (kw : Kw), (keepcalling v kw).isCallable = false) := by
  refine ⟨keepcalling_func, fun v kw h => ?_, keepcalling_not_callable⟩
  cases v with
  | prim p => exact keepcalling_prim p kw
  | func f => simp [Value.isCallable] at h

/-- C5 witness: a non-invocable value is returned unchanged. -/
theorem keepcalling_spec_witness :
    keepcalling (.prim (.pstr ("data"))) [] = .prim (.pstr ("data")) :=
  keepcalling_spec.2.1 (.prim (.pstr ("data"))) [] rfl

theorem foldl_transformStep_id (l : List (String × String)) (acc : List Char)
    (h : ∀ p ∈ l, occursIn p.1.data acc = false) :
    l.foldl transformStep acc = acc := by
  induction l with
  | nil => rfl
  | cons p rest ih =>
    rw [List.foldl_cons]
    have hp : transformStep acc p = acc := by
      rw [transformStep, h p (List.mem_cons_self p rest)]
      simp
    rw [hp]
    exact ih (fun q hq => h q (List.mem_cons_of_mem p hq))

theorem exceptMap_ok {α β γ : Type} (f : α → β) (e : Except γ α) (b : β)
    (h : Except.map f e = .ok b) : ∃ a, e = .ok a ∧ b = f a := by
  cases e with
  | ok a =>
    refine ⟨a, rfl, ?_⟩
    simpa [Except.map] using h.symm
  | error g => simp [Except.map] at h

theorem exceptMap_error {α β γ : Type} (f : α → β) (e : Except γ α) (g : γ)
    (h : Except.map f e = .error g) : e = .error g := by
  cases e <;> simp_all [Except.map]

theorem reCompile_ok (q : String) (r : CompiledRegex)
    (h : reCompile q = .ok r) : r = { pattern := q, icase := true } := by
  rw [reCompile] at h
  by_cases hv : reValid q = true
  · rw [if_pos hv] at h
    exact ((Except.ok.injEq _ _).mp h).symm
  · rw [if_neg hv] at h
    exact absurd h (by simp)

theorem reCompile_error (q : String) (e : Exc)
    (h : reCompile q = .error e) : e = .sreError q := by
  rw [reCompile] at h
  by_cases hv : reValid q = true
  · rw [if_pos hv] at h
    exact absurd h (by simp)
  · rw [if_neg hv] at h
    exact ((Except.error.injEq _ _).mp h).symm

theorem make_ok_raw (t : String) (pat : RoutePattern)
    (h : make t = .ok pat) : pat.raw = t := by
  rw [make] at h
  obtain ⟨r, _, hpat⟩ := exceptMap_ok _ _ _ h
  rw [hpat]

/-- C6 counterexample: the template `a` has no placeholder tokens and
compiles successfully, yet its compiled matcher also accepts the
different path `/A` (matching is case-insensitive), so it does not
match only the exact path. -/
theorem c6_counterexample :
    make ("a") = .ok (makeOk ("a"))
    ∧ (reMatchGroups (makeOk ("a")).regex ("/A")).isSome = true
    ∧ (("/A") == ("/a")) = false := by
  exact ⟨rfl, by decide, by decide⟩

/-- C6 (amended): for a template with no placeholder tokens, `make`
hands `re.compile` exactly the template with a leading `/` ensured,
wrapped in `^`/`$`, under `re.IGNORECASE`; whenever that compilation
succeeds the resulting matcher has exactly that pattern and the
case-insensitive flag, and it accepts the exact path but — being
case-insensitive over unescaped literals — not only that path (template
`a` also accepts `/A`). -/
theorem c6_amended :
    (∀ t : String,
      (∀ p ∈ urlTransformers, occursIn p.1.data t.data = false) →
      make t = Except.map (fun regex => { raw := t, regex := regex })
        (reCompile ⟨'^' :: ((if isPre ['/'] t.data then t.data else '/' :: t.data) ++ ['$'])⟩)
      ∧ ∀ pat : RoutePattern, make t = .ok pat →
          pat.regex.pattern =
            ⟨'^' :: ((if isPre ['/'] t.data then t.data else '/' :: t.data) ++ ['$'])⟩
          ∧ pat.regex.icase = true)
    ∧ make ("a") = .ok (makeOk ("a"))
    ∧ (reMatchGroups (makeOk ("a")).regex ("/a")).isSome = true
    ∧ (reMatchGroups (makeOk ("a")).regex ("/A")).isSome = true := by
  refine ⟨fun t h => ?_, rfl, by decide, by decide⟩
  have hfold : urlTransformers.foldl transformStep t.data = t.data :=
    foldl_transformStep_id _ _ h
  have hpipe : make t = Except.map (fun regex => { raw := t, regex := regex })
      (reCompile ⟨'^' :: ((if isPre ['/'] t.data then t.data else '/' :: t.data) ++ ['$'])⟩) := by
    rw [make]
    simp only [hfold]
    split <;> simp
  refine ⟨hpipe, fun pat hok => ?_⟩
  rw [hpipe] at hok
  obtain ⟨r, hr, hpat⟩ := exceptMap_ok _ _ _ hok
  rw [hpat, reCompile_ok _ _ hr]
  exact ⟨rfl, rfl⟩

/-- C6 witness: the amended statement instantiated at the
placeholder-free template `a`. -/
theorem c6_amended_witness :
    (makeOk ("a")).regex.pattern = ("^/a$")
    ∧ (makeOk ("a")).regex.icase = true := by
  have h := (c6_amended.1 ("a") (by decide)).2 (makeOk ("a")) c6_amended.2.1
  exact ⟨h.1.trans (by decide), h.2⟩

theorem route_call_ne_none_matches (r : Route) (req : Request)
    (h : r.call req ≠ .prim .pnone) :
    (reMatchGroups r.pattern.regex req.path).isSome = true := by
  rw [Route.call] at h
  cases hm : reMatchGroups r.pattern.regex req.path with
  | some gd => rfl
  | none => rw [hm] at h; exact absurd rfl h

theorem routerLoop_skip (req : Request) (path : String) (seen : List String)
    (pre rest : List Route)
    (hpre : ∀ r' ∈ pre, r'.call req = .prim .pnone) :
    routerLoop req path seen (pre ++ rest) = routerLoop req path seen rest := by
  induction pre with
  | nil => rfl
  | cons r pre ih =>
    rw [List.cons_append, routerLoop, hpre r (List.mem_cons_self r pre)]
    exact ih (fun q hq => hpre q (List.mem_cons_of_mem r hq))

/-- C1 (amended): dispatch tries the routes in registration order and
returns the result of the first route whose matcher matches the full
path and whose trampolined handler result (with `request` and the
captured named groups bound as keyword arguments) is neither `None` nor
a raised exception; a matching route whose handler result is `None` is
skipped and later routes are tried. -/
theorem c1_amended (R : Router) (req : Request) (pre post : List Route)
    (r : Route) (v : Value)
    (hsplit : R.routes = pre ++ r :: post)
    (hpre : ∀ r' ∈ pre, r'.call req = .prim .pnone)
    (hr : r.call req = v)
    (hvn : v ≠ .prim .pnone)
    (hve : ∀ e, v ≠ .prim (.pexc e)) :
    routerCall R req = .ok v
    ∧ (∀ (r' : Route) (req' : Request) (gd : List (String × String)),
        reMatchGroups r'.pattern.regex req'.path = some gd →
        r'.call req' =
          keepcalling r'.handler
            ((("request"), .preq req') :: gd.map (fun p => (p.1, .pstr p.2)))) := by
  constructor
  · have hmatch : routerMatches R req.path = true := by
      rw [routerMatches, List.any_eq_true]
      refine ⟨r, ?_, route_call_ne_none_matches r req (hr ▸ hvn)⟩
      rw [hsplit]
      exact List.mem_append_right pre (List.mem_cons_self r post)
    rw [routerCall, hmatch, if_pos rfl, hsplit, routerLoop_skip req req.path R.seen pre _ hpre,
      routerLoop, hr]
    cases v with
    | prim p =>
      cases p with
      | pnone => exact absurd rfl hvn
      | pexc e => exact absurd rfl (hve e)
      | pstr s => rfl
      | pnat n => rfl
      | preq r' => rfl
    | func f => rfl
  · intro r' req' gd hm
    rw [Route.call, hm]

/-- C1 counterexample: on `c1router` (routes `x` then `/x`, both
matching `/x`) the first registered matching route is `rX`, whose
trampolined handler result is `None`, yet dispatch returns the second
route's result `second` — so dispatch did not return the first matching
route's result and did try a later route. -/
theorem c1_counterexample :
    c1router.routes = [rX, rSlashX]
    ∧ (reMatchGroups rX.pattern.regex reqX.path).isSome = true
    ∧ rX.call reqX = .prim .pnone
    ∧ routerCall c1router reqX = .ok (.prim (.pstr ("second")))
    ∧ ((Prim.pstr ("second")) == Prim.pnone) = false := by
  exact ⟨rfl, by decide, rfl, rfl, by decide⟩

/-- C1 witness: the amended statement instantiated on `c1router`. -/
theorem c1_amended_witness :
    routerCall c1router reqX = .ok (.prim (.pstr ("second"))) := by
  refine (c1_amended c1router reqX [rX] [] rSlashX (.prim (.pstr ("second")))
    rfl ?_ rfl (by simp) (fun e => by simp)).1
  intro r' h'
  rw [List.mem_singleton] at h'
  subst h'
  rfl

/-- C2: at a request whose path no registered route matches, dispatch
raises the bare `Exception('reminder to self, change this')`, not a
`NoRouteHandler` — contradicting both the spec and the repository's own
`test_find_no_matching_path`, which expects `NoRouteHandler`. -/
theorem c2_code_behaviour :
    routerMatches c2router reqY.path = false
    ∧ routerCall c2router reqY = .error .reminder
    ∧ ((Exc.reminder).cls == ExcClass.noRouteHandlerC) = false
    ∧ ((Exc.reminder) == Exc.noRoute (reqY.path) (sortStrs c2router.seen)) = false := by
  exact ⟨rfl, rfl, by decide, by decide⟩

theorem routerPrepare_ok (t : String) (h : Handler)
    (hargs : (requiredArguments h).length = countPlaceholders t) :
    routerPrepare t h = make t := by
  rw [routerPrepare, if_neg]
  simp [hargs]

theorem routerPrepare_ok_make (t : String) (h : Handler) (pat : RoutePattern)
    (hp : routerPrepare t h = .ok pat) : make t = .ok pat := by
  rw [routerPrepare] at hp
  by_cases hc : (requiredArguments h).length ≠ countPlaceholders t
  · rw [if_pos hc] at hp
    exact absurd hp (by simp)
  · rw [if_neg hc] at hp
    exact hp

theorem routerPrepare_error_shape (t : String) (h : Handler) (e : Exc)
    (hp : routerPrepare t h = .error e) :
    e = .argMismatch t ∨ ∃ p, e = .sreError p := by
  rw [routerPrepare] at hp
  by_cases hc : (requiredArguments h).length ≠ countPlaceholders t
  · rw [if_pos hc] at hp
    exact Or.inl ((Except.error.injEq _ _).mp hp).symm
  · rw [if_neg hc, make] at hp
    exact Or.inr ⟨_, reCompile_error _ _ (exceptMap_error _ _ _ hp)⟩

/-- C4 (amended): re-registering an already-registered raw template
fails with `DuplicateRoute`, provided the registration gets as far as
the duplicate check — i.e. it passes the handler-argument-count check
and the template compiles, both of which `Router.prepare` runs first;
and registering a raw template that was not yet registered never
triggers the duplicate error, whatever else happens (even when its
compiled pattern equals an already-registered one). -/
theorem c4_amended (R : Router) (t : String) (h : Handler) (outs : List String) :
    ((requiredArguments h).length = countPlaceholders t →
      ∀ pat : RoutePattern, make t = .ok pat → t ∈ R.seen →
      routerAdd R t h outs = .error (.dupRoute t))
    ∧ (t ∉ R.seen → ∀ r : String, routerAdd R t h outs ≠ .error (.dupRoute r)) := by
  constructor
  · intro hargs pat hmk hmem
    have hprep : routerPrepare t h = .ok pat := (routerPrepare_ok t h hargs).trans hmk
    have hraw : pat.raw = t := make_ok_raw t pat hmk
    simp only [routerAdd, hprep]
    rw [hraw, if_pos hmem]
  · intro hnin r
    cases hp : routerPrepare t h with
    | error e =>
      simp only [routerAdd, hp]
      rcases routerPrepare_error_shape t h e hp with he | ⟨p, he⟩ <;> subst he <;> simp
    | ok pat =>
      have hraw : pat.raw = t := make_ok_raw t pat (routerPrepare_ok_make t h pat hp)
      simp only [routerAdd, hp, hraw]
      rw [if_neg hnin]
      simp

/-- C4 counterexample: the template `a` is already registered in
`c4router`, yet re-registering it with a handler whose required-argument
count mismatches fails with the argument-count `BlanketValueError`, not
with `DuplicateRoute` (the `prepare` check runs before the duplicate
check); likewise a fresh registration of `a(` passes the argument-count
check but fails with `sre_constants.error` from `re.compile('^/a($')`
rather than succeeding. -/
theorem c4_counterexample :
    (("a") ∈ c4router.seen)
    ∧ routerAdd c4router ("a") hBad [] = .error (.argMismatch ("a"))
    ∧ ((Exc.argMismatch ("a")) == Exc.dupRoute ("a")) = false
    ∧ ((Exc.argMismatch ("a")).cls == ExcClass.duplicateRouteC) = false
    ∧ routerAdd Router.empty ("a(") hOk [] = .error (.sreError ("^/a($"))
    ∧ ((Exc.sreError ("^/a($")) == Exc.dupRoute ("a(")) = false := by
  exact ⟨by decide, rfl, by decide, by decide, rfl, by decide⟩

/-- C4 witness: re-adding `a` to `c4router` raises `DuplicateRoute`;
adding the different raw template `/a` does not raise the duplicate
error even though its compiled pattern equals that of `a`. -/
theorem c4_amended_witness :
    routerAdd c4router ("a") hOk [] = .error (.dupRoute ("a"))
    ∧ routerAdd c4router ("/a") hOk [] ≠ .error (.dupRoute ("/a"))
    ∧ (((makeOk ("a")).regex) == ((makeOk ("/a")).regex)) = true := by
  exact ⟨(c4_amended c4router ("a") hOk []).1 (by decide) (makeOk ("a")) rfl (by decide),
         (c4_amended c4router ("/a") hOk []).2 (by decide) ("/a"),
         by decide⟩

/-- C10: under the drift invariant (no duplicate seen templates, equal
list/set sizes) `Router.__len__` equals both the route-list length and
the seen-set cardinality; the invariant holds of a fresh router; and a
successful add appends exactly one route and records exactly one raw
template, preserving the invariant (a failing add returns an error and
produces no new router state). -/
theorem c10_inv (R : Router) (t : String) (h : Handler) (outs : List String)
    (hinv : routerInv R) :
    routerLen R = R.routes.length
    ∧ routerLen R = R.seen.length
    ∧ routerInv Router.empty
    ∧ (∀ R', routerAdd R t h outs = .ok R' →
        routerInv R' ∧ R'.routes.length = R.routes.length + 1
        ∧ R'.seen = R.seen ++ [t]) := by
  obtain ⟨hnodup, hlen⟩ := hinv
  refine ⟨?_, ?_, ⟨List.nodup_nil, rfl⟩, ?_⟩
  · rw [routerLen, hlen]; omega
  · rw [routerLen, hlen]; omega
  · intro R' hadd
    rw [routerAdd] at hadd
    cases hprep : routerPrepare t h with
    | error e => rw [hprep] at hadd; exact absurd hadd (by simp)
    | ok pat =>
      have hraw : pat.raw = t :=
        make_ok_raw t pat (routerPrepare_ok_make t h pat hprep)
      rw [hprep] at hadd
      simp only [hraw] at hadd
      by_cases hmem : t ∈ R.seen
      · rw [if_pos hmem] at hadd; exact absurd hadd (by simp)
      · rw [if_neg hmem] at hadd
        have hR' := ((Except.ok.injEq _ _).mp hadd.symm).symm
        subst hR'
        refine ⟨⟨?_, ?_⟩, ?_, rfl⟩
        · simp [List.nodup_append, hnodup, hmem]
        · simp [hlen]
        · simp

/-- C10 witness: the claim instantiated at `c4router` (one registered
route) and a successful add of `/a`. -/
theorem c10_inv_witness :
    routerLen c4router = 1
    ∧ routerInv Router.empty
    ∧ (∀ R', routerAdd c4router ("/a") hOk [] = .ok R' →
        R'.seen = c4router.seen ++ [("/a")]) := by
  have h := c10_inv c4router ("/a") hOk [] ⟨by decide, by decide⟩
  exact ⟨h.1.trans (by rfl), h.2.2.1, fun R' hR' => (h.2.2.2 R' hR').2.2⟩

theorem errorRouterLoop_skip (e : Exc) (req : Option Request)
    (ecls : ExcClass) (seen : List ExcClass) (pre rest : List ErrorRoute)
    (hpre : ∀ x ∈ pre, x.handles e = false) :
    errorRouterLoop e req ecls seen (pre ++ rest)
      = errorRouterLoop e req ecls seen rest := by
  induction pre with
  | nil => rfl
  | cons r pre ih =>
    rw [List.cons_append, errorRouterLoop,
      if_neg (by rw [hpre r (List.mem_cons_self r pre)]; simp)]
    exact ih (fun q hq => hpre q (List.mem_cons_of_mem r hq))

/-- C3: exception dispatch walks the registered entries in registration
order; the first whose registered class is the exact class or an
ancestor of the raised exception's class has its handler trampolined
with `exception` and `request` bound and its result returned; if no
entry handles the exception, `NoErrorHandler` is raised carrying the
exception's class and the registered classes. -/
theorem c3_error_dispatch (R : ErrorRouter) (e : Exc) (req : Option Request) :
    (∀ (pre post : List ErrorRoute) (er : ErrorRoute),
      R.routes = pre ++ er :: post →
      (∀ x ∈ pre, x.handles e = false) →
      er.handles e = true →
      errorRouterCall R e req = raiseOr (keepcalling er.handler (errKwargs e req)))
    ∧ ((∀ x ∈ R.routes, x.handles e = false) →
      errorRouterCall R e req = .error (.noErrorH e.cls (sortCls R.seen)))
    ∧ (∀ er : ErrorRoute,
        er.handles e = true ↔ er.exceptionClass ∈ e.cls.ancestors) := by
  refine ⟨fun pre post er hsplit hpre her => ?_, fun hall => ?_, fun er => ?_⟩
  · rw [errorRouterCall, hsplit, errorRouterLoop_skip e req e.cls R.seen pre _ hpre,
      errorRouterLoop, if_pos her]
  · rw [errorRouterCall,
      show R.routes = R.routes ++ [] by simp,
      errorRouterLoop_skip e req e.cls R.seen R.routes [] hall,
      errorRouterLoop]
  · rw [ErrorRoute.handles, ExcClass.isSub]
    simp

/-- C3 witness: on the `TypeError`-then-`ValueError` table, a raised
`BlanketValueError` (a `ValueError` descendant) selects the second
entry; a raised `KeyError` matches no entry and `NoErrorHandler` carries
its class and the registered classes. -/
theorem c3_error_dispatch_witness :
    errorRouterCall erTV (.userErr .blanketValueErrorC ("test")) none
      = .ok (.prim (.pstr ("swallowed")))
    ∧ errorRouterCall erTV (.userErr .keyErrorC ("k")) none
      = .error (.noErrorH .keyErrorC [.valueErrorC, .typeErrorC]) := by
  constructor
  · have h := (c3_error_dispatch erTV (.userErr .blanketValueErrorC ("test")) none).1
      [erT] [] erV rfl
      (by intro x hx; rw [List.mem_singleton] at hx; subst hx; rfl) rfl
    exact h.trans rfl
  · have h := (c3_error_dispatch erTV (.userErr .keyErrorC ("k")) none).2.1 ?_
    · exact h.trans rfl
    · intro x hx
      have : x = erT ∨ x = erV := by
        simpa [erTV, List.mem_cons] using hx
      rcases this with h' | h' <;> (subst h'; rfl)

/-- C8: with at least one route registered and an Accept header present,
an exception raised by route dispatch is caught exactly once and
redirected into the exception route table with the request attached —
`get_response` returns exactly what that single error dispatch
produces — and whatever the error dispatch itself raises (including
`NoErrorHandler`) propagates to the caller uncaught. -/
theorem c8_catch_once (app : App) (req : Request) (e : Exc)
    (hlen : 1 ≤ routerLen app.router)
    (hacc : req.hasAccept = true)
    (hdisp : routerCall app.router req = .error e) :
    getResponse app req = errorRouterCall app.errorRouter e (some req)
    ∧ (∀ e', errorRouterCall app.errorRouter e (some req) = .error e' →
        getResponse app req = .error e') := by
  have hmain : getResponse app req = errorRouterCall app.errorRouter e (some req) := by
    rw [getResponse, if_neg (by omega), hacc]
    simp only [Bool.not_true]
    rw [if_neg (by simp), hdisp]
  exact ⟨hmain, fun e' he' => hmain.trans he'⟩

/-- C8 witness: a handler raising `BlanketValueError` is redirected once
into the error table — returning the `ValueError` handler's result when
one is registered, and letting the resulting `NoErrorHandler` escape
uncaught when the table is empty (mirroring the application tests). -/
theorem c8_catch_once_witness :
    getResponse c8app reqRoot = .ok (.prim (.pstr ("swallowed")))
    ∧ getResponse c8appBare reqRoot
      = .error (.noErrorH .blanketValueErrorC []) := by
  constructor
  · exact ((c8_catch_once c8app reqRoot (.userErr .blanketValueErrorC ("test"))
      (by decide) rfl rfl).1).trans rfl
  · exact (c8_catch_once c8appBare reqRoot (.userErr .blanketValueErrorC ("test"))
      (by decide) rfl rfl).2 _ rfl

mutual

theorem dumpV_isSome (lvl : Nat) (v : JVal) :
    (dumpV lvl v).isSome = serializableV v := by
  cases v with
  | jnull => rfl
  | jbool b => rfl
  | jnat n => rfl
  | jstr s => rfl
  | junser => rfl
  | jarr l =>
    rw [dumpV, serializableV, ← dumpArrItems_isSome (lvl + 1) l]
    cases harr : dumpArrItems (lvl + 1) l with
    | none => rfl
    | some items => cases items <;> rfl
  | jobj l =>
    rw [dumpV, serializableV, ← dumpObjItems_isSome (lvl + 1) l]
    cases hobj : dumpObjItems (lvl + 1) l with
    | none => rfl
    | some items => cases items <;> rfl

theorem dumpArrItems_isSome (lvl : Nat) (l : List JVal) :
    (dumpArrItems lvl l).isSome = serializableArr l := by
  cases l with
  | nil => rfl
  | cons v rest =>
    rw [dumpArrItems, serializableArr, ← dumpV_isSome lvl v,
      ← dumpArrItems_isSome lvl rest]
    cases dumpV lvl v <;> cases dumpArrItems lvl rest <;> rfl

theorem dumpObjItems_isSome (lvl : Nat) (l : List (String × JVal)) :
    (dumpObjItems lvl l).isSome = serializableObj l := by
  cases l with
  | nil => rfl
  | cons kv rest =>
    obtain ⟨k, v⟩ := kv
    rw [dumpObjItems, serializableObj, ← dumpV_isSome lvl v,
      ← dumpObjItems_isSome lvl rest]
    cases dumpV lvl v <;> cases dumpObjItems lvl rest <;> rfl

end

/-- C9: the canonical JSON renderer serializes a serializable context
with 4-space indentation and keys in iteration order (the concrete
instance below reproduces the repository's `test_outputs.py` string).
But on a context with a non-serializable value the `except` block first
evaluates `request.blanket.log` — an attribute nothing in the library
ever sets — so for requests without that userland attribute an
`AttributeError` escapes instead of `None` being returned; `None` is
only reached when the attribute was attached. -/
theorem c9_json_renderer (req : Request) (ctx : List (String × JVal)) :
    (serializableObj ctx = true →
      json_renderer req ctx = .ok (dumpV 0 (.jobj ctx))
      ∧ (dumpV 0 (.jobj ctx)).isSome = true)
    ∧ (serializableObj ctx = false → req.hasBlanket = false →
      json_renderer req ctx = .error (.userErr .attributeErrorC ("blanket")))
    ∧ (serializableObj ctx = false → req.hasBlanket = true →
      json_renderer req ctx = .ok none)
    ∧ json_renderer ⟨("/"), true, true⟩
        [(("test"), .jnat 1), (("output"), .jnat 2)]
      = .ok (some ("\x7b\n    \"test\": 1, \n    \"output\": 2\n\x7d")) := by
  have hser : (dumpV 0 (.jobj ctx)).isSome = serializableObj ctx := by
    rw [dumpV_isSome]; rfl
  refine ⟨fun h => ?_, fun h hb => ?_, fun h hb => ?_, by rfl⟩
  · rw [h] at hser
    rw [json_renderer]
    cases hd : dumpV 0 (.jobj ctx) with
    | none => rw [hd] at hser; exact absurd hser (by simp)
    | some s => exact ⟨rfl, rfl⟩
  · rw [h] at hser
    rw [json_renderer]
    cases hd : dumpV 0 (.jobj ctx) with
    | none => rw [hb]; rfl
    | some s => rw [hd] at hser; exact absurd hser (by simp)
  · rw [h] at hser
    rw [json_renderer]
    cases hd : dumpV 0 (.jobj ctx) with
    | none => rw [hb]; rfl
    | some s => rw [hd] at hser; exact absurd hser (by simp)

/-- C9 witness: at the failing input — a request without the `blanket`
attribute and a context holding a non-serializable value — the renderer
raises `AttributeError` instead of returning `None`; with the attribute
attached it returns `None`; and a serializable context renders. -/
theorem c9_json_renderer_witness :
    json_renderer ⟨("/"), true, false⟩ [(("a"), .junser)]
      = .error (.userErr .attributeErrorC ("blanket"))
    ∧ json_renderer ⟨("/"), true, true⟩ [(("a"), .junser)] = .ok none
    ∧ json_renderer ⟨("/"), true, false⟩ [(("yay"), .jnat 14)]
      = .ok (dumpV 0 (.jobj [(("yay"), .jnat 14)])) := by
  exact ⟨(c9_json_renderer ⟨("/"), true, false⟩ [(("a"), .junser)]).2.1 rfl rfl,
         (c9_json_renderer ⟨("/"), true, true⟩ [(("a"), .junser)]).2.2.1 rfl rfl,
         ((c9_json_renderer ⟨("/"), true, false⟩ [(("yay"), .jnat 14)]).1 rfl).1⟩

theorem isSome_ite (b : Bool) (x : Option Caps) :
    (if b = true then x else none).isSome = (b && x.isSome) := by
  cases b <;> simp

theorem mrun_alt_isSome (ic : Bool) (r₁ r₂ : Regex) (s : List Char) (cap : Caps)
    (k : List Char → Caps → Option Caps) :
    (mrun ic (.alt r₁ r₂) s cap k).isSome
      = ((mrun ic r₁ s cap k).isSome || (mrun ic r₂ s cap k).isSome) := by
  rw [mrun]
  cases mrun ic r₁ s cap k <;> simp

theorem reMatchGroups_isSome (cr : CompiledRegex) (l : List Char) (r : Regex)
    (hp : parsePattern cr.pattern = some r) :
    (reMatchGroups cr ⟨l⟩).isSome
      = (mrun cr.icase r l []
          (fun rest caps => if rest.isEmpty then some caps else none)).isSome := by
  rw [reMatchGroups, hp]
  dsimp only
  cases mrun cr.icase r l [] _ <;> rfl

theorem test_digit_range (lo hi : Nat) (hlo : 48 ≤ lo) (hhi : hi ≤ 57) (a : Char) :
    (CClass.test ⟨[(lo, hi)]⟩ true a) = true ↔ lo ≤ a.toNat ∧ a.toNat ≤ hi := by
  simp [CClass.test, CClass.mem, flipCase]
  split_ifs <;> omega

theorem test_digit_range2 (p q u w : Nat) (hp : 48 ≤ p) (hq : q ≤ 57)
    (hu : 48 ≤ u) (hw : w ≤ 57) (a : Char) :
    (CClass.test ⟨[(p, q), (u, w)]⟩ true a) = true ↔
      (p ≤ a.toNat ∧ a.toNat ≤ q) ∨ (u ≤ a.toNat ∧ a.toNat ≤ w) := by
  simp [CClass.test, CClass.mem, flipCase]
  split_ifs <;> omega

theorem year_fragment_lang (s : List Char) :
    (reMatchGroups (makeOk ("\x7bv!year\x7d")).regex ⟨'/' :: s⟩).isSome = true
      ↔ s.length = 4 ∧ (∀ c ∈ s, IsDigitCh c)
        ∧ 1000 ≤ natOfDigits s ∧ natOfDigits s ≤ 9999 := by
  have hp : parsePattern (makeOk ("\x7bv!year\x7d")).regex.pattern = some yearAST := by
    decide
  rw [reMatchGroups_isSome _ _ yearAST hp]
  have hic : (makeOk ("\x7bv!year\x7d")).regex.icase = true := rfl
  rw [hic]
  match s with
  | [] => simp +decide [mrun, yearAST, isSome_ite]
  | [a] => simp +decide [mrun, yearAST, isSome_ite]
  | [a, b] => simp +decide [mrun, yearAST, isSome_ite]
  | [a, b, c] => simp +decide [mrun, yearAST, isSome_ite]
  | a :: b :: c :: d :: rest =>
    simp +decide [mrun, yearAST, isSome_ite, Bool.and_eq_true,
      test_digit_range 49 57 (by omega) (by omega),
      test_digit_range 48 57 (by omega) (by omega),
      natOfDigits, IsDigitCh]
    rcases rest with _ | ⟨e, rest⟩
    · simp only [List.foldl_nil, List.length_nil, List.not_mem_nil, false_implies,
        implies_true, and_true, true_and]
      split_ifs <;> simp <;> omega
    · simp

theorem month_fragment_lang (s : List Char) :
    (reMatchGroups (makeOk ("\x7bv!month\x7d")).regex ⟨'/' :: s⟩).isSome = true
      ↔ s.length = 2 ∧ (∀ c ∈ s, IsDigitCh c)
        ∧ 1 ≤ natOfDigits s ∧ natOfDigits s ≤ 12 := by
  have hp : parsePattern (makeOk ("\x7bv!month\x7d")).regex.pattern = some monthAST := by
    decide
  rw [reMatchGroups_isSome _ _ monthAST hp]
  have hic : (makeOk ("\x7bv!month\x7d")).regex.icase = true := rfl
  rw [hic]
  match s with
  | [] => simp +decide [mrun, monthAST, isSome_ite, mrun_alt_isSome]
  | [a] =>
    simp +decide [mrun, monthAST, isSome_ite, mrun_alt_isSome,
      test_digit_range 48 48 (by omega) (by omega),
      test_digit_range 49 49 (by omega) (by omega)]
  | a :: b :: rest =>
    simp +decide [mrun, monthAST, isSome_ite, mrun_alt_isSome, Bool.and_eq_true,
      test_digit_range 48 48 (by omega) (by omega),
      test_digit_range 49 49 (by omega) (by omega),
      test_digit_range 49 57 (by omega) (by omega),
      test_digit_range 48 50 (by omega) (by omega),
      natOfDigits, IsDigitCh]
    rcases rest with _ | ⟨e, rest⟩
    · simp only [List.foldl_nil, List.length_nil, List.not_mem_nil, false_implies,
        implies_true, and_true, true_and]
      split_ifs <;> simp <;> omega
    · simp

theorem day_fragment_lang (s : List Char) :
    (reMatchGroups (makeOk ("\x7bv!day\x7d")).regex ⟨'/' :: s⟩).isSome = true
      ↔ s.length = 2 ∧ (∀ c ∈ s, IsDigitCh c)
        ∧ 1 ≤ natOfDigits s ∧ natOfDigits s ≤ 31 := by
  have hp : parsePattern (makeOk ("\x7bv!day\x7d")).regex.pattern = some dayAST := by
    decide
  rw [reMatchGroups_isSome _ _ dayAST hp]
  have hic : (makeOk ("\x7bv!day\x7d")).regex.icase = true := rfl
  rw [hic]
  match s with
  | [] => simp +decide [mrun, dayAST, isSome_ite, mrun_alt_isSome]
  | [a] =>
    simp +decide [mrun, dayAST, isSome_ite, mrun_alt_isSome,
      test_digit_range 48 48 (by omega) (by omega),
      test_digit_range 51 51 (by omega) (by omega),
      test_digit_range2 49 49 50 50 (by omega) (by omega) (by omega) (by omega)]
  | a :: b :: rest =>
    simp +decide [mrun, dayAST, isSome_ite, mrun_alt_isSome, Bool.and_eq_true,
      test_digit_range 48 48 (by omega) (by omega),
      test_digit_range 51 51 (by omega) (by omega),
      test_digit_range 49 57 (by omega) (by omega),
      test_digit_range 48 57 (by omega) (by omega),
      test_digit_range2 49 49 50 50 (by omega) (by omega) (by omega) (by omega),
      test_digit_range2 48 48 49 49 (by omega) (by omega) (by omega) (by omega),
      natOfDigits, IsDigitCh]
    rcases rest with _ | ⟨e, rest⟩
    · simp only [List.foldl_nil, List.length_nil, List.not_mem_nil, false_implies,
        implies_true, and_true, true_and]
      split_ifs <;> simp <;> omega
    · simp

/-- C7: in a compiled template, the `!year` placeholder accepts exactly
the digit strings of length 4 with value 1000-9999 (so the 3-digit `999`
is rejected), `!month` accepts exactly the two-digit strings `01`-`12`
(rejecting `00` and `13`), and `!day` accepts exactly the two-digit
strings `01`-`31` (rejecting `00` and `32`), with no month-length
awareness — `31` is accepted for every month. -/
theorem c7_date_placeholders :
    make ("\x7bv!year\x7d") = .ok (makeOk ("\x7bv!year\x7d"))
    ∧ make ("\x7bv!month\x7d") = .ok (makeOk ("\x7bv!month\x7d"))
    ∧ make ("\x7bv!day\x7d") = .ok (makeOk ("\x7bv!day\x7d"))
    ∧ (∀ s : List Char,
      (reMatchGroups (makeOk ("\x7bv!year\x7d")).regex ⟨'/' :: s⟩).isSome = true
        ↔ s.length = 4 ∧ (∀ c ∈ s, IsDigitCh c)
          ∧ 1000 ≤ natOfDigits s ∧ natOfDigits s ≤ 9999)
    ∧ (∀ s : List Char,
      (reMatchGroups (makeOk ("\x7bv!month\x7d")).regex ⟨'/' :: s⟩).isSome = true
        ↔ s.length = 2 ∧ (∀ c ∈ s, IsDigitCh c)
          ∧ 1 ≤ natOfDigits s ∧ natOfDigits s ≤ 12)
    ∧ (∀ s : List Char,
      (reMatchGroups (makeOk ("\x7bv!day\x7d")).regex ⟨'/' :: s⟩).isSome = true
        ↔ s.length = 2 ∧ (∀ c ∈ s, IsDigitCh c)
          ∧ 1 ≤ natOfDigits s ∧ natOfDigits s ≤ 31)
    ∧ (reMatchGroups (makeOk ("\x7bv!year\x7d")).regex ("/999")).isSome = false
    ∧ (reMatchGroups (makeOk ("\x7bv!year\x7d")).regex ("/1000")).isSome = true
    ∧ (reMatchGroups (makeOk ("\x7bv!year\x7d")).regex ("/9999")).isSome = true
    ∧ (reMatchGroups (makeOk ("\x7bv!month\x7d")).regex ("/00")).isSome = false
    ∧ (reMatchGroups (makeOk ("\x7bv!month\x7d")).regex ("/13")).isSome = false
    ∧ (reMatchGroups (makeOk ("\x7bv!day\x7d")).regex ("/00")).isSome = false
    ∧ (reMatchGroups (makeOk ("\x7bv!day\x7d")).regex ("/32")).isSome = false
    ∧ (reMatchGroups (makeOk ("\x7bv!day\x7d")).regex ("/31")).isSome = true :=
  ⟨rfl, rfl, rfl, year_fragment_lang, month_fragment_lang, day_fragment_lang,
   by decide, by decide, by decide, by decide, by decide, by decide,
   by decide, by decide⟩

/-- C7 witness: the year characterization applied at the concrete
placeholder content `1999`. -/
theorem c7_date_placeholders_witness :
    (reMatchGroups (makeOk ("\x7bv!year\x7d")).regex
      ⟨'/' :: [('1'), ('9'), ('9'), ('9')]⟩).isSome = true :=
  (c7_date_placeholders.2.2.2.1 [('1'), ('9'), ('9'), ('9')]).mpr (by decide)

end Blanket
